import Mathlib

/-!
Shallow embedding of the retry-governed AWS resource facade of brkt-cli
(src/brkt_cli/aws/aws_service.py), together with theorems settling the
spec claims about it.

Errors raised by remote calls are modelled as an explicit error type, and
every fallible Python function becomes a Lean function returning `Except`.
A wrapped remote operation is modelled as a function from the invocation
index (0-based: how many calls happened before) to the outcome of that
invocation, which captures that each retry re-invokes the operation and may
observe a different provider response.
-/

set_option autoImplicit false

namespace AwsService

/-- A boto `EC2ResponseError`: the provider error observed by the adapter.
The adapter reads and compares its `code` field (`e.error_code` in the
source) and re-raises the error value itself; `reason` stands for the rest
of the error payload, so that equality of `EC2Err` values expresses
"the very same error, unchanged". -/
structure EC2Err where
  code : String
  reason : String
deriving DecidableEq, Repr

/-- An exception escaping a remote call: either a boto `EC2ResponseError`
(the only kind `retry_boto` catches) or an exception of any other kind,
which the engine must never touch. -/
inductive PyErr where
  | ec2 (e : EC2Err)
  | other (name : String)
deriving DecidableEq, Repr

/-- Outcome of running a retry-wrapped operation: the final result
(returned value or raised error) together with how many times the
underlying operation was invoked. -/
structure RunResult (α : Type) where
  result : Except PyErr α
  calls : Nat
deriving Repr

/-- The loop body of `retry_boto.func_wrapper` (aws_service.py lines
192-216). `remaining = max_retries - retries` counts how many further
retries the `retries >= max_retries` guard still allows, and `k` is the
0-based index of the current invocation. On an `EC2ResponseError` the
source first checks the retry budget and re-raises when it is exhausted,
then tests the error code against the pattern (`re.match`) and
re-raises on a mismatch; otherwise it sleeps, doubles the delay and loops.
Exceptions of other kinds are not caught and propagate at once. -/
def retryGo {α : Type} (codeOk : String → Bool) (f : Nat → Except PyErr α) :
    Nat → Nat → RunResult α
  | 0, k =>
    match f k with
    | .ok a => ⟨.ok a, k + 1⟩
    | .error e => ⟨.error e, k + 1⟩
  | r + 1, k =>
    match f k with
    | .ok a => ⟨.ok a, k + 1⟩
    | .error (.other n) => ⟨.error (.other n), k + 1⟩
    | .error (.ec2 c) =>
      if codeOk c.code then retryGo codeOk f r (k + 1)
      else ⟨.error (.ec2 c), k + 1⟩

/-- Model of `retry_boto(error_code_regexp, max_retries)` applied to an operation
`f` (aws_service.py lines 184-219). `codeOk` is the classifier
`code ↦ (re.match(error_code_regexp, code) is not None)`; for every
pattern the source uses (plain literals with escaped dots, or an
alternation of such literals) this is a prefix test on the code string. -/
def retry_boto {α : Type} (codeOk : String → Bool) (max_retries : Nat)
    (f : Nat → Except PyErr α) : RunResult α :=
  retryGo codeOk f max_retries 0

/-- Model of `_get_first_element(list, error_status)` (aws_service.py lines
222-232): first element of the list, or a synthesized `EC2ResponseError`
carrying the designated not-found code when the list is empty. -/
def _get_first_element {α : Type} (l : List α) (error_status : String) :
    Except PyErr α :=
  match l with
  | x :: _ => .ok x
  | [] => .error (.ec2 ⟨error_status, "AWS API returned an empty response"⟩)

/-- Python `s.startswith(pre)`, and equally `re.match(pre_literal, s)`
for a regex that is a plain literal (with escaped dots): `pre` is a
prefix of `s`.  Stated on the character lists so that it reduces by
structural recursion. -/
def strHasPrefix (pre s : String) : Bool :=
  pre.data.isPrefixOf s.data

/-- A Python dict of tag strings, modelled as its entry list (keys unique
in any dict the program builds). -/
abbrev Dict : Type := List (String × String)

/-- Python `d[k]`-style lookup: value of the first entry whose key is `k`. -/
def dictLookup (d : Dict) (k : String) : Option String :=
  match d with
  | [] => none
  | (k2, v) :: rest => if k2 = k then some v else dictLookup rest k

/-- Python `d[k] = v`: overwrite the value at key `k` when present,
append the entry otherwise. -/
def dictSet (d : Dict) (k v : String) : Dict :=
  if d.any (fun p => p.1 = k) then
    d.map (fun p => if p.1 = k then (k, v) else p)
  else d ++ [(k, v)]

/-- The mutable attributes of an `AWSService` instance
(aws_service.py lines 235-248). -/
structure AWSServiceState where
  session_id : String
  default_tags : Dict
  key_name : Option String
  region : Option String
deriving Repr

/-- Model of `AWSService.__init__(encryptor_session_id, default_tags)`
(aws_service.py lines 237-248): `self.default_tags = default_tags or` the
empty dict, so a falsy argument (absent, or an empty dict) leaves the
instance with no default tags. -/
def AWSService_init (encryptor_session_id : String)
    (default_tags : Option Dict) : AWSServiceState :=
  { session_id := encryptor_session_id
    default_tags :=
      match default_tags with
      | some d => if d = [] then [] else d
      | none => []
    key_name := none
    region := none }

/-- The body of `AWSService.create_tags` (aws_service.py lines 319-327):
`tags = dict(self.default_tags)` builds a fresh dict holding the same
entries (so the instance attribute is never aliased), then the truthy
`name` and `description` arguments are written under the keys `Name` and
`Description`, and the resulting dict is submitted to
`conn.create_tags`. Returns the instance state after the call together
with the submitted tag dict. An empty string is falsy in Python, so
`name=` or `description=` equal to the empty string is not written. -/
def create_tags (st : AWSServiceState) (_resource_id : String)
    (name description : Option String) : AWSServiceState × Dict :=
  let tags := st.default_tags
  let tags :=
    match name with
    | some n => if n = "" then tags else dictSet tags "Name" n
    | none => tags
  let tags :=
    match description with
    | some d => if d = "" then tags else dictSet tags "Description" d
    | none => tags
  (st, tags)

/-- The body of `AWSService.delete_volume` for one invocation
(aws_service.py lines 378-386, inside the `retry_boto` wrapper): issue
`conn.delete_volume`; if it raises an `EC2ResponseError` whose code is
not `InvalidVolume.NotFound`, re-raise it; otherwise (success, or the
volume already being absent) return `True`. `provider` is the outcome of
the underlying `conn.delete_volume` call. -/
def delete_volume_attempt (provider : Except PyErr Unit) : Except PyErr Bool :=
  match provider with
  | .ok _ => .ok true
  | .error (.ec2 e) =>
    if e.code ≠ "InvalidVolume.NotFound" then .error (.ec2 e) else .ok true
  | .error (.other n) => .error (.other n)

/-- Model of `AWSService.delete_volume` (aws_service.py lines 378-386): the body
above wrapped by `retry_boto` with the pattern `VolumeInUse` and the
default `max_retries=5`. `provider k` is the outcome of the k-th
underlying `conn.delete_volume` call. -/
def delete_volume (provider : Nat → Except PyErr Unit) : RunResult Bool :=
  retry_boto (fun code => strHasPrefix "VolumeInUse" code) 5
    (fun k => delete_volume_attempt (provider k))

/-- A security group as returned by `conn.get_all_security_groups`. -/
structure SecGroup where
  id : String
deriving DecidableEq, Repr

/-- Model of `AWSService.get_security_group(sg_id, retry=True)` (aws_service.py
lines 431-441). With `retry=True` (the default) the source defines a
local `get_with_retry` wrapped in
`retry_boto` with the pattern `InvalidGroup\.NotFound` and then
executes the statement `get_with_retry(sg_id)` WITHOUT a `return`, so on
success the method falls off its end and returns `None`; an error raised
by the wrapped call still propagates.  With `retry=False` it returns the
first listed group, or raises the synthesized
`InvalidGroup.NotFound` error on an empty list. `provider k` is the group
list the k-th `conn.get_all_security_groups` call returns. -/
def get_security_group (provider : Nat → List SecGroup)
    (retry : Bool) : Except PyErr (Option SecGroup) :=
  if retry then
    let r := retry_boto (fun code => strHasPrefix "InvalidGroup.NotFound" code) 5
      (fun k => _get_first_element (provider k) "InvalidGroup.NotFound")
    match r.result with
    | .ok _ => .ok none
    | .error e => .error e
  else
    match _get_first_element (provider 0) "InvalidGroup.NotFound" with
    | .ok g => .ok (some g)
    | .error e => .error e

/-- Model of `AWSService.get_instance` (aws_service.py lines 314-317): the listing
call filtered by id, normalized by `_get_first_element`, wrapped in
`retry_boto` with the pattern `InvalidInstanceID\.NotFound`.
`provider k` is the instance list the k-th listing call returns. -/
def get_instance (provider : Nat → List String) : RunResult String :=
  retry_boto (fun code => strHasPrefix "InvalidInstanceID.NotFound" code) 5
    (fun k => _get_first_element (provider k) "InvalidInstanceID.NotFound")

/-- A `brkt_cli.validation.ValidationError`, carrying its message. -/
structure ValidationError where
  message : String
deriving DecidableEq, Repr

/-- Decidable equality of results, so that concrete runs of the
validators can be checked by evaluation. -/
instance {ε α : Type} [DecidableEq ε] [DecidableEq α] :
    DecidableEq (Except ε α) := fun x y =>
  match x, y with
  | .ok a, .ok b =>
    if h : a = b then isTrue (by rw [h]) else isFalse (by simp [h])
  | .error a, .error b =>
    if h : a = b then isTrue (by rw [h]) else isFalse (by simp [h])
  | .ok _, .error _ => isFalse (by simp)
  | .error _, .ok _ => isFalse (by simp)

/-- One character of the class `[A-Za-z0-9()\[\] ./\-\x27@_]` of the image
name pattern (aws_service.py line 512): an ASCII letter, an ASCII digit,
or one of the twelve listed punctuation characters (the `\x27` escape is
the apostrophe, exactly as in the Lean string below). -/
def allowedImageChar (c : Char) : Bool :=
  c.isAlpha || c.isDigit || "()[] ./-\x27@_".data.contains c

/-- Python `re.match` of the pattern `[A-Za-z0-9()\[\] ./\-\x27@_]+$`
against `name` (aws_service.py line 512). `re.match` anchors at the start
of the string, and the final `$` matches at the end of the string OR just
before a newline at the end of the string (Python `$` semantics without
`re.DOTALL`/`re.MULTILINE` changing it).  The character class contains no
newline, so the pattern matches exactly when the whole string is a
non-empty run of allowed characters, or when the string ends in a single
newline preceded by a non-empty run of allowed characters. -/
def imageNameMatches (name : String) : Bool :=
  let cs := name.data
  (!cs.isEmpty && cs.all allowedImageChar) ||
  (decide (2 ≤ cs.length) && (cs.getLastD (Char.ofNat 0) = Char.ofNat 10) &&
    cs.dropLast.all allowedImageChar)

/-- Model of `validate_image_name` (aws_service.py lines 502-518): reject
unless the name is truthy and its length lies between 3 and 128, then
reject unless the pattern above matches, else return the name. -/
def validate_image_name (name : String) : Except ValidationError String :=
  if ¬(name ≠ "" ∧ 3 ≤ name.length ∧ name.length ≤ 128) then
    .error ⟨"Image name must be between 3 and 128 characters long"⟩
  else if imageNameMatches name = false then
    .error ⟨"Image name may only contain letters, numbers, spaces, and the following characters: ()[]./-\x27@_"⟩
  else
    .ok name

/-- Model of `validate_tag_key` (aws_service.py lines 521-535). -/
def validate_tag_key (key : String) : Except ValidationError String :=
  if key.length > 127 then
    .error ⟨"Tag key cannot be longer than 127 characters"⟩
  else if strHasPrefix "aws:" key then
    .error ⟨"Tag key cannot start with \x22aws:\x22"⟩
  else
    .ok key

/-- Model of `validate_tag_value` (aws_service.py lines 538-552). -/
def validate_tag_value (value : String) : Except ValidationError String :=
  if value.length > 255 then
    .error ⟨"Tag value cannot be longer than 255 characters"⟩
  else if strHasPrefix "aws:" value then
    .error ⟨"Tag value cannot start with \x22aws:\x22"⟩
  else
    .ok value

/-- Outcome of running the time-bounded retry engine: the final result,
how many attempts of the wrapped operation ran, and how many backoff
sleeps were entered. -/
structure TimedResult (α : Type) where
  result : Except PyErr α
  attempts : Nat
  sleeps : Nat
deriving Repr

/-- Modelled from the spec: the source under src has only the
attempt-bounded engine `retry_boto`; the spec (sections 4.2, 5 and 8)
also describes a time-bounded mode, which is rendered here.  A run is
driven by a trace of attempt behaviours, each a pair of wall-clock
duration and outcome of the attempt; attempts run atomically (never
interrupted mid-flight).  `elapsed` is the wall-clock time since the
first attempt began and `delay` the current backoff delay.  After a
failed attempt: a non-retryable error (per the classifier) is re-raised
at once; otherwise the deadline is checked BEFORE committing to another
sleep and attempt - when the elapsed time has reached the timeout the
last error is re-raised unchanged, and only otherwise does the engine
sleep for `delay` (which counts into the elapsed wall-clock time), double
the delay, and run the next attempt.  `none` is returned only when the
trace is too short to drive the run to completion. -/
def retryTimedGo {α : Type} (retryable : PyErr → Bool) (timeout : Nat) :
    List (Nat × Except PyErr α) → Nat → Nat → Nat → Nat →
    Option (TimedResult α)
  | [], _, _, _, _ => none
  | (d, out) :: rest, elapsed, delay, att, sl =>
    match out with
    | .ok a => some ⟨.ok a, att + 1, sl⟩
    | .error e =>
      if retryable e = false then some ⟨.error e, att + 1, sl⟩
      else if timeout ≤ elapsed + d then some ⟨.error e, att + 1, sl⟩
      else
        retryTimedGo retryable timeout rest (elapsed + d + delay) (2 * delay)
          (att + 1) (sl + 1)

/-- Modelled from the spec: entry point of the time-bounded retry mode,
starting with zero elapsed time and the configured initial delay. -/
def retryTimed {α : Type} (retryable : PyErr → Bool)
    (timeout initialDelay : Nat) (trace : List (Nat × Except PyErr α)) :
    Option (TimedResult α) :=
  retryTimedGo retryable timeout trace 0 initialDelay 0 0

/-! ## Helper lemmas about the retry loop -/

theorem retryGo_ok {α : Type} (codeOk : String → Bool)
    (f : Nat → Except PyErr α) (r k : Nat) (a : α) (h : f k = .ok a) :
    retryGo codeOk f r k = ⟨.ok a, k + 1⟩ := by
  cases r <;> unfold retryGo <;> rw [h]

theorem retryGo_raise_now {α : Type} (codeOk : String → Bool)
    (f : Nat → Except PyErr α) (r k : Nat) (e : PyErr) (h : f k = .error e)
    (hnc : ∀ c, e = .ec2 c → codeOk c.code = false) :
    retryGo codeOk f r k = ⟨.error e, k + 1⟩ := by
  cases r with
  | zero => unfold retryGo; rw [h]
  | succ r =>
    unfold retryGo
    rw [h]
    cases e with
    | other n => rfl
    | ec2 c => simp [hnc c rfl]

theorem retryGo_ok_after {α : Type} (codeOk : String → Bool)
    (f : Nat → Except PyErr α) (a : α) :
    ∀ r k, (∀ j, j < r → ∃ c, f (k + j) = .error (.ec2 c) ∧
      codeOk c.code = true) → f (k + r) = .ok a →
    retryGo codeOk f r k = ⟨.ok a, k + r + 1⟩ := by
  intro r
  induction r with
  | zero =>
    intro k _ hok
    rw [retryGo_ok codeOk f 0 k a (by simpa using hok)]
  | succ r ih =>
    intro k hfail hok
    obtain ⟨c, hfk, hc⟩ := hfail 0 (Nat.succ_pos r)
    rw [Nat.add_zero] at hfk
    unfold retryGo
    rw [hfk]
    simp only [hc, if_true]
    have hfail2 : ∀ j, j < r → ∃ c, f (k + 1 + j) = .error (.ec2 c) ∧
        codeOk c.code = true := by
      intro j hj
      have := hfail (j + 1) (by omega)
      simpa [Nat.add_comm, Nat.add_assoc, Nat.add_left_comm] using this
    have hok2 : f (k + 1 + r) = .ok a := by
      have h2 : k + 1 + r = k + (r + 1) := by omega
      rw [h2]; exact hok
    have := ih (k + 1) hfail2 hok2
    rw [this]
    have h3 : k + 1 + r + 1 = k + (r + 1) + 1 := by omega
    rw [h3]

theorem retryGo_exhaust {α : Type} (codeOk : String → Bool)
    (f : Nat → Except PyErr α) (cs : Nat → EC2Err) :
    ∀ r k, (∀ j, j ≤ r → f (k + j) = .error (.ec2 (cs (k + j))) ∧
      codeOk (cs (k + j)).code = true) →
    retryGo codeOk f r k = ⟨.error (.ec2 (cs (k + r))), k + r + 1⟩ := by
  intro r
  induction r with
  | zero =>
    intro k h
    obtain ⟨hf, _⟩ := h 0 (Nat.le_refl 0)
    rw [Nat.add_zero] at hf
    unfold retryGo
    rw [hf]
    simp
  | succ r ih =>
    intro k h
    obtain ⟨hf, hc⟩ := h 0 (Nat.zero_le _)
    rw [Nat.add_zero] at hf
    rw [Nat.add_zero] at hc
    unfold retryGo
    rw [hf]
    simp only [hc, if_true]
    have h2 : ∀ j, j ≤ r → f (k + 1 + j) = .error (.ec2 (cs (k + 1 + j))) ∧
        codeOk (cs (k + 1 + j)).code = true := by
      intro j hj
      have := h (j + 1) (by omega)
      have heq : k + (j + 1) = k + 1 + j := by omega
      rw [heq] at this
      exact this
    have := ih (k + 1) h2
    rw [this]
    have h3 : k + 1 + r = k + (r + 1) := by omega
    rw [h3]

/-! ## Helper lemmas about dict update and lookup -/

theorem dictLookup_append_single_self (d : Dict) (k v : String)
    (h : d.any (fun p => p.1 = k) = false) :
    dictLookup (d ++ [(k, v)]) k = some v := by
  induction d with
  | nil => simp [dictLookup]
  | cons hd tl ih =>
    simp only [List.any_cons, Bool.or_eq_false_iff] at h
    obtain ⟨h1, h2⟩ := h
    obtain ⟨k2, v2⟩ := hd
    simp only [decide_eq_false_iff_not] at h1
    simp only [List.cons_append, dictLookup]
    rw [if_neg h1]
    exact ih h2

theorem dictLookup_append_single_other (d : Dict) (k v k2 : String)
    (h : k2 ≠ k) : dictLookup (d ++ [(k, v)]) k2 = dictLookup d k2 := by
  induction d with
  | nil =>
    simp only [List.nil_append, dictLookup]
    rw [if_neg (Ne.symm h)]
  | cons hd tl ih =>
    obtain ⟨k3, v3⟩ := hd
    simp only [List.cons_append, dictLookup]
    by_cases h3 : k3 = k2
    · rw [if_pos h3, if_pos h3]
    · rw [if_neg h3, if_neg h3]
      exact ih

theorem dictLookup_map_set_self (d : Dict) (k v : String)
    (h : d.any (fun p => p.1 = k) = true) :
    dictLookup (d.map (fun p => if p.1 = k then (k, v) else p)) k = some v := by
  induction d with
  | nil => simp at h
  | cons hd tl ih =>
    obtain ⟨k2, v2⟩ := hd
    by_cases h2 : k2 = k
    · subst h2
      simp only [List.map_cons, if_pos rfl]
      simp [dictLookup]
    · simp only [List.any_cons, Bool.or_eq_true] at h
      rcases h with h | h
      · exact absurd (of_decide_eq_true h) h2
      · simp only [List.map_cons]
        rw [if_neg h2]
        simp only [dictLookup]
        rw [if_neg h2]
        exact ih h

theorem dictLookup_map_set_other (d : Dict) (k v k2 : String)
    (h : k2 ≠ k) :
    dictLookup (d.map (fun p => if p.1 = k then (k, v) else p)) k2 =
      dictLookup d k2 := by
  induction d with
  | nil => simp [dictLookup]
  | cons hd tl ih =>
    obtain ⟨k3, v3⟩ := hd
    simp only [List.map_cons]
    by_cases h3 : k3 = k
    · subst h3
      rw [if_pos rfl]
      simp only [dictLookup]
      rw [if_neg (Ne.symm h), if_neg (Ne.symm h)]
      exact ih
    · rw [if_neg h3]
      simp only [dictLookup]
      by_cases h4 : k3 = k2
      · rw [if_pos h4, if_pos h4]
      · rw [if_neg h4, if_neg h4]
        exact ih

theorem dictLookup_dictSet_self (d : Dict) (k v : String) :
    dictLookup (dictSet d k v) k = some v := by
  unfold dictSet
  by_cases h : d.any (fun p => p.1 = k) = true
  · rw [if_pos h]
    exact dictLookup_map_set_self d k v h
  · rw [if_neg h]
    exact dictLookup_append_single_self d k v (Bool.eq_false_iff.mpr h)

theorem dictLookup_dictSet_other (d : Dict) (k v k2 : String) (h : k2 ≠ k) :
    dictLookup (dictSet d k v) k2 = dictLookup d k2 := by
  unfold dictSet
  by_cases h2 : d.any (fun p => p.1 = k) = true
  · rw [if_pos h2]
    exact dictLookup_map_set_other d k v k2 h
  · rw [if_neg h2]
    exact dictLookup_append_single_other d k v k2 h

/-! ## Claim theorems -/

/-- C1: for every operation wrapped by `retry_boto` with `max_retries = N`,
if the underlying call raises a classifier-retryable `EC2ResponseError` on
each of the first N invocations and succeeds on invocation N+1, the
wrapper returns that success result and the underlying operation is
invoked exactly N+1 times. -/
theorem retry_boto_success_after_retries {α : Type} (codeOk : String → Bool)
    (N : Nat) (f : Nat → Except PyErr α) (a : α)
    (hfail : ∀ j, j < N → ∃ c, f j = .error (.ec2 c) ∧ codeOk c.code = true)
    (hok : f N = .ok a) :
    retry_boto codeOk N f = ⟨.ok a, N + 1⟩ := by
  have := retryGo_ok_after codeOk f a N 0 (by simpa using hfail)
    (by simpa using hok)
  simpa [retry_boto] using this

/-- Witness for C1: with a bound of 2 retries, an operation that fails
with a retryable code twice and then returns 42 yields 42 after exactly
3 invocations. -/
theorem retry_boto_success_after_retries_witness :
    retry_boto (fun code => strHasPrefix "X" code) 2
      (fun k => if k < 2 then
        Except.error (PyErr.ec2 ⟨"X.NotFound", "r"⟩) else Except.ok 42) =
    ⟨Except.ok 42, 3⟩ := by
  apply retry_boto_success_after_retries
  · intro j hj
    refine ⟨⟨"X.NotFound", "r"⟩, ?_, by decide⟩
    simp [hj]
  · rfl

/-- C2: an error that the active classifier does not recognize as
retryable - an `EC2ResponseError` whose code does not match the pattern,
or an exception of a kind outside what the engine examines - makes the
wrapper invoke the operation exactly once and re-raise that very error,
for every configured attempt bound. -/
theorem retry_boto_nonretryable_single_call {α : Type}
    (codeOk : String → Bool) (N : Nat) (f : Nat → Except PyErr α)
    (e : PyErr) (h0 : f 0 = .error e)
    (hnc : ∀ c, e = .ec2 c → codeOk c.code = false) :
    retry_boto codeOk N f = ⟨.error e, 1⟩ := by
  have := retryGo_raise_now codeOk f N 0 e h0 hnc
  simpa [retry_boto] using this

/-- Witness for C2: with a bound of 5 retries, an operation raising a
non-matching provider error is called once and the error re-raised. -/
theorem retry_boto_nonretryable_single_call_witness :
    retry_boto (fun code => strHasPrefix "X" code) 5
      (fun _ => (Except.error (PyErr.ec2 ⟨"AuthFailure", "denied"⟩) :
        Except PyErr Nat)) =
    ⟨Except.error (PyErr.ec2 ⟨"AuthFailure", "denied"⟩), 1⟩ := by
  apply retry_boto_nonretryable_single_call
  · rfl
  · intro c hc
    injection hc with h
    rw [← h]
    decide

/-- C4: when `retry_boto` exhausts its attempt bound, it re-raises the
error of the last invocation itself, unchanged - the result of the run is
exactly that `EC2ResponseError` value, never a distinct exhausted-retries
error and never a wrapped or re-typed one. -/
theorem retry_boto_exhaustion_reraises_last {α : Type}
    (codeOk : String → Bool) (N : Nat) (f : Nat → Except PyErr α)
    (cs : Nat → EC2Err)
    (h : ∀ j, j ≤ N → f j = .error (.ec2 (cs j)) ∧ codeOk (cs j).code = true) :
    retry_boto codeOk N f = ⟨.error (.ec2 (cs N)), N + 1⟩ := by
  have := retryGo_exhaust codeOk f cs N 0 (by simpa using h)
  simpa [retry_boto] using this

/-- Witness for C4: with a bound of 1 retry, an operation that always
raises the same retryable error is called twice and that error is the
final result. -/
theorem retry_boto_exhaustion_reraises_last_witness :
    retry_boto (fun code => strHasPrefix "X" code) 1
      (fun _ => (Except.error (PyErr.ec2 ⟨"X.NotFound", "r"⟩) :
        Except PyErr Nat)) =
    ⟨Except.error (PyErr.ec2 ⟨"X.NotFound", "r"⟩), 2⟩ := by
  apply retry_boto_exhaustion_reraises_last _ _ _ (fun _ => ⟨"X.NotFound", "r"⟩)
  intro j hj
  exact ⟨rfl, by decide⟩

/-- C3, evaluated at the failing input: `get_security_group` with
`retry=True` (its default) against a provider returning a non-empty
group list returns `None` instead of the first element, because the
source calls its retry-wrapped inner lookup without `return`; the
`retry=False` path of the same method does return the first element, and
on an empty list the normalization raises the synthesized
`InvalidGroup.NotFound` error rather than an empty success. -/
theorem get_security_group_retry_true_returns_none :
    get_security_group (fun _ => [⟨"sg-1"⟩]) true = .ok none
    ∧ get_security_group (fun _ => [⟨"sg-1"⟩]) false = .ok (some ⟨"sg-1"⟩)
    ∧ _get_first_element ([] : List SecGroup) "InvalidGroup.NotFound" =
        .error (.ec2 ⟨"InvalidGroup.NotFound",
          "AWS API returned an empty response"⟩) :=
  ⟨rfl, rfl, rfl⟩

/-- C5: in the time-bounded retry mode with timeout T, when every attempt
in the trace takes longer than T and the first attempt fails with a
classifier-retryable error, the engine re-raises that error after exactly
one attempt and enters no sleep, because the deadline is checked before
committing to another sleep and attempt. -/
theorem retryTimed_slow_attempts_single_call {α : Type}
    (retryable : PyErr → Bool) (timeout initialDelay d : Nat) (e : PyErr)
    (rest : List (Nat × Except PyErr α))
    (hslow : ∀ p ∈ ((d, Except.error e) :: rest :
      List (Nat × Except PyErr α)), timeout < p.1)
    (hretry : retryable e = true) :
    retryTimed retryable timeout initialDelay ((d, .error e) :: rest) =
      some ⟨.error e, 1, 0⟩ := by
  have hd : timeout < d := hslow (d, .error e) (List.mem_cons_self _ _)
  unfold retryTimed retryTimedGo
  dsimp only
  rw [hretry]
  simp only [Bool.true_eq_false, if_false]
  rw [if_pos (by omega)]

/-- Witness for C5: a 10-unit timeout with a single 11-unit failing
attempt raises that error after one attempt and zero sleeps. -/
theorem retryTimed_slow_attempts_single_call_witness :
    retryTimed (fun _ => true) 10 1
      [((11 : Nat), (Except.error (PyErr.ec2 ⟨"E", "e"⟩) :
        Except PyErr Nat))] =
      some ⟨Except.error (PyErr.ec2 ⟨"E", "e"⟩), 1, 0⟩ := by
  apply retryTimed_slow_attempts_single_call
  · intro p hp
    rw [List.mem_singleton] at hp
    rw [hp]
    decide
  · rfl

/-- C6: `delete_volume` is idempotent - when the provider reports the
volume already absent (`InvalidVolume.NotFound`) the call returns `True`
from a single invocation, while a provider error with any other code is
re-raised (after the `VolumeInUse` retries when that code is busy,
immediately otherwise). -/
theorem delete_volume_idempotent :
    (∀ reason : String,
      delete_volume (fun _ =>
        .error (.ec2 ⟨"InvalidVolume.NotFound", reason⟩)) = ⟨.ok true, 1⟩)
    ∧ (∀ e : EC2Err, e.code ≠ "InvalidVolume.NotFound" →
      (delete_volume (fun _ => .error (.ec2 e))).result = .error (.ec2 e)) := by
  constructor
  · intro reason
    unfold delete_volume retry_boto
    exact retryGo_ok _ _ 5 0 true (by simp [delete_volume_attempt])
  · intro e he
    unfold delete_volume retry_boto
    by_cases hbusy : strHasPrefix "VolumeInUse" e.code = true
    · rw [retryGo_exhaust (fun code => strHasPrefix "VolumeInUse" code)
        (fun k => delete_volume_attempt (.error (.ec2 e))) (fun _ => e) 5 0 ?_]
      intro j hj
      exact ⟨by simp [delete_volume_attempt, he], hbusy⟩
    · rw [retryGo_raise_now (fun code => strHasPrefix "VolumeInUse" code)
        (fun k => delete_volume_attempt (.error (.ec2 e))) 5 0 (.ec2 e)
        (by simp [delete_volume_attempt, he]) ?_]
      intro c hc
      injection hc with h2
      rw [← h2]
      exact Bool.eq_false_iff.mpr hbusy

/-- Witness for C6: deleting an already-deleted volume returns `True`
after one call, and a persistent `VolumeInUse` error is re-raised. -/
theorem delete_volume_idempotent_witness :
    delete_volume (fun _ =>
      .error (.ec2 ⟨"InvalidVolume.NotFound", "gone"⟩)) = ⟨.ok true, 1⟩
    ∧ (delete_volume (fun _ =>
      .error (.ec2 ⟨"VolumeInUse", "busy"⟩))).result =
        .error (.ec2 ⟨"VolumeInUse", "busy"⟩) :=
  ⟨delete_volume_idempotent.1 "gone",
    delete_volume_idempotent.2 ⟨"VolumeInUse", "busy"⟩ (by decide)⟩

/-- C7: the tag dict `create_tags` submits to the provider is the
default tag set as base with the truthy explicit `Name` and `Description`
keys written on top, the explicit per-call value winning on a key
collision and every other key keeping its default value; the same holds
when only one of the two is supplied. -/
theorem create_tags_merges_defaults (st : AWSServiceState)
    (rid n desc k : String) (hn : n ≠ "") (hd : desc ≠ "") :
    (dictLookup (create_tags st rid (some n) (some desc)).2 k =
      if k = "Name" then some n
      else if k = "Description" then some desc
      else dictLookup st.default_tags k)
    ∧ (dictLookup (create_tags st rid (some n) none).2 k =
      if k = "Name" then some n else dictLookup st.default_tags k)
    ∧ (dictLookup (create_tags st rid none (some desc)).2 k =
      if k = "Description" then some desc
      else dictLookup st.default_tags k) := by
  unfold create_tags
  simp only [if_neg hn, if_neg hd]
  refine ⟨?_, ?_, ?_⟩
  · by_cases hk1 : k = "Name"
    · subst hk1
      rw [if_pos rfl]
      rw [dictLookup_dictSet_other _ _ _ _ (by decide)]
      exact dictLookup_dictSet_self _ _ _
    · rw [if_neg hk1]
      by_cases hk2 : k = "Description"
      · subst hk2
        rw [if_pos rfl]
        exact dictLookup_dictSet_self _ _ _
      · rw [if_neg hk2]
        rw [dictLookup_dictSet_other _ _ _ _ hk2,
          dictLookup_dictSet_other _ _ _ _ hk1]
  · by_cases hk1 : k = "Name"
    · subst hk1
      rw [if_pos rfl]
      exact dictLookup_dictSet_self _ _ _
    · rw [if_neg hk1]
      exact dictLookup_dictSet_other _ _ _ _ hk1
  · by_cases hk2 : k = "Description"
    · subst hk2
      rw [if_pos rfl]
      exact dictLookup_dictSet_self _ _ _
    · rw [if_neg hk2]
      exact dictLookup_dictSet_other _ _ _ _ hk2

/-- Witness for C7: a default tag set already holding a `Name` entry is
overridden by the explicit per-call name in the submitted dict, while an
unrelated default key keeps its value. -/
theorem create_tags_merges_defaults_witness :
    dictLookup (create_tags
      ⟨"sid", [("Name", "old"), ("env", "prod")], none, none⟩
      "r" (some "new") (some "desc")).2 "Name" = some "new"
    ∧ dictLookup (create_tags
      ⟨"sid", [("Name", "old"), ("env", "prod")], none, none⟩
      "r" (some "new") (some "desc")).2 "env" = some "prod" := by
  constructor
  · have h := (create_tags_merges_defaults
      ⟨"sid", [("Name", "old"), ("env", "prod")], none, none⟩
      "r" "new" "desc" "Name" (by decide) (by decide)).1
    rw [h, if_pos rfl]
  · have h := (create_tags_merges_defaults
      ⟨"sid", [("Name", "old"), ("env", "prod")], none, none⟩
      "r" "new" "desc" "env" (by decide) (by decide)).1
    rw [h, if_neg (by decide), if_neg (by decide)]
    decide

/-- C8: `validate_tag_key` returns its argument unchanged exactly for
keys of length at most 127 not starting with the reserved prefix, and
raises a `ValidationError` exactly when the key is longer than 127
characters or starts with the prefix; `validate_tag_value` behaves the
same with the length bound 255. -/
theorem validate_tag_roundtrip (k v : String) :
    (validate_tag_key k = .ok k ↔
      (k.length ≤ 127 ∧ strHasPrefix "aws:" k = false))
    ∧ ((∃ m, validate_tag_key k = .error m) ↔
      (127 < k.length ∨ strHasPrefix "aws:" k = true))
    ∧ (validate_tag_value v = .ok v ↔
      (v.length ≤ 255 ∧ strHasPrefix "aws:" v = false))
    ∧ ((∃ m, validate_tag_value v = .error m) ↔
      (255 < v.length ∨ strHasPrefix "aws:" v = true)) := by
  unfold validate_tag_key validate_tag_value
  by_cases h1 : 127 < k.length <;> by_cases h2 : strHasPrefix "aws:" k = true <;>
    by_cases h3 : 255 < v.length <;>
    by_cases h4 : strHasPrefix "aws:" v = true <;>
    simp [h1, h2, h3, h4, Bool.eq_false_iff] <;> omega

set_option maxRecDepth 8192 in
/-- C9, evaluated at the failing input: the name consisting of `abc`
followed by a newline is accepted unchanged by `validate_image_name`,
although the newline (character 10) is outside the allowed character
set - the `$` anchor of the Python pattern matches just before a trailing
newline.  The boundary behaviour around it is as specified: length 2
fails, lengths 3 and 128 of allowed characters succeed, length 129
fails. -/
theorem validate_image_name_trailing_newline :
    validate_image_name ("abc" ++ ⟨[Char.ofNat 10]⟩) =
      .ok ("abc" ++ ⟨[Char.ofNat 10]⟩)
    ∧ allowedImageChar (Char.ofNat 10) = false
    ∧ validate_image_name "AB" =
      .error ⟨"Image name must be between 3 and 128 characters long"⟩
    ∧ validate_image_name "abc" = .ok "abc"
    ∧ validate_image_name (String.mk (List.replicate 128 (Char.ofNat 97))) =
      .ok (String.mk (List.replicate 128 (Char.ofNat 97)))
    ∧ validate_image_name (String.mk (List.replicate 129 (Char.ofNat 97))) =
      .error ⟨"Image name must be between 3 and 128 characters long"⟩ := by
  refine ⟨?_, by decide, by decide, by decide, ?_, ?_⟩
  · decide
  · decide
  · decide

/-- C10: `create_tags` leaves the stored `default_tags` of the facade
instance unchanged - the submitted dict is built from a copy, so the
per-call `Name` and `Description` values never leak into the default tag
set seen by later operations of the same instance. -/
theorem create_tags_preserves_default_tags (st : AWSServiceState)
    (rid : String) (name description : Option String) :
    ((create_tags st rid name description).1).default_tags =
      st.default_tags ∧
    (create_tags st rid name description).1 = st :=
  ⟨rfl, rfl⟩

end AwsService
